import Mathlib

/-!
Shallow embedding of drivers/gpu/msm/kgsl_sync.c (KGSL sync timeline /
fence export driver).

The file under src/ is kgsl_sync.c alone.  The generic Android sync
framework (sync_pt_create, sync_fence_create, sync_fence_install,
sync_fence_put, sync_timeline_create), the fd table helpers
(get_unused_fd_flags, put_unused_fd), copy_to_user, kzalloc/kfree,
kgsl_find_context, kgsl_add_event and timestamp_cmp (kgsl.h) are
repository code outside src/; they are modelled from the spec, each
with a doc comment saying so.  Fallibility of those collaborators is
injected through an explicit environment record, and resource traffic
is recorded in an explicit trace record, so that the unwinding ladder
of kgsl_add_fence_event can be audited path by path.
-/

/-- Modelled from the spec: timestamp_cmp lives in kgsl.h, which is not
under src/.  Spec 4.1: compare over the wrapping 32-bit counter space;
`after` (positive) iff the difference a - b, reduced mod 2^32 and read
as a signed 32-bit quantity, is positive; 0 iff the values are equal;
`before` (negative) otherwise. -/
def timestamp_cmp (a b : Nat) : Int :=
  let d := (a % 2 ^ 32 + (2 ^ 32 - b % 2 ^ 32)) % 2 ^ 32
  if d = 0 then 0 else if d < 2 ^ 31 then 1 else -1

/-- State of a kgsl_sync_timeline: the embedded struct adds one field,
`last_timestamp`, to the framework timeline. -/
structure KgslSyncTimeline where
  last_timestamp : Nat
deriving DecidableEq

/-- State of a kgsl_sync_pt: `parent` is the identity of the owning
timeline (pt->parent), `timestamp` the embedded target timestamp. -/
structure KgslSyncPt where
  parent : Nat
  timestamp : Nat
deriving DecidableEq

/-- kgsl_sync_pt_create: sync_pt_create (framework, outside src/,
modelled from the spec as a fallible allocation, failure injected via
`allocOk`) allocates the point; on success the embedded timestamp field
is set.  Returns NULL (none) iff the allocation fails. -/
def kgsl_sync_pt_create (parent : Nat) (timestamp : Nat) (allocOk : Bool) :
    Option KgslSyncPt :=
  if allocOk then some { parent := parent, timestamp := timestamp } else none

/-- kgsl_sync_pt_dup: duplicates a point by calling kgsl_sync_pt_create
with the same parent timeline and the same embedded timestamp. -/
def kgsl_sync_pt_dup (pt : KgslSyncPt) (allocOk : Bool) : Option KgslSyncPt :=
  kgsl_sync_pt_create pt.parent pt.timestamp allocOk

/-- kgsl_sync_pt_has_signaled: reads the parent timeline's
last_timestamp and the point's timestamp and returns
timestamp_cmp(last_ts, ts) >= 0.  It is a pure function of the two
states: the embedding's type records that it writes neither. -/
def kgsl_sync_pt_has_signaled (tl : KgslSyncTimeline) (pt : KgslSyncPt) : Bool :=
  decide (0 ≤ timestamp_cmp tl.last_timestamp pt.timestamp)

/-- kgsl_sync_pt_compare: timestamp_cmp over the two embedded
timestamps. -/
def kgsl_sync_pt_compare (a b : KgslSyncPt) : Int :=
  timestamp_cmp a.timestamp b.timestamp

/-- kgsl_sync_timeline_signal: stores the given timestamp into
last_timestamp unconditionally, then calls sync_timeline_signal (the
notification sweep, outside src/; it re-evaluates waiters and holds no
state modelled here). -/
def kgsl_sync_timeline_signal (tl : KgslSyncTimeline) (timestamp : Nat) :
    KgslSyncTimeline :=
  { tl with last_timestamp := timestamp }

/-- A kgsl_context as far as kgsl_sync.c touches it: the timeline
pointer (none = NULL). -/
structure KgslContext where
  timeline : Option KgslSyncTimeline
deriving DecidableEq

/-- kgsl_sync_timeline_create: context->timeline is assigned the result
of sync_timeline_create (framework, outside src/, modelled from the
spec as a fallible allocation, failure injected via `allocOk`).  On
NULL the function returns -EINVAL with context->timeline left NULL;
otherwise last_timestamp is initialized to 0 and 0 is returned. -/
def kgsl_sync_timeline_create (ctx : KgslContext) (allocOk : Bool) :
    Int × KgslContext :=
  if allocOk then (0, { ctx with timeline := some { last_timestamp := 0 } })
  else (-22, { ctx with timeline := none })

/-- kgsl_fence_event_cb: the completion callback signals the context's
timeline with the retired timestamp (then kfrees its private state,
accounted in the pipeline trace model). -/
def kgsl_fence_event_cb (tl : KgslSyncTimeline) (timestamp : Nat) :
    KgslSyncTimeline :=
  kgsl_sync_timeline_signal tl timestamp

/-- Environment of one kgsl_add_fence_event call: the outcome of each
fallible collaborator, all outside src/ and modelled from the spec.
`lenOk` is len == sizeof(struct kgsl_timestamp_event_fence); `ctxFound`
the kgsl_find_context result; `kzallocOk` the event allocation;
`ptAllocOk` sync_pt_create inside kgsl_sync_pt_create; `fenceAllocOk`
sync_fence_create; `fenceFd` the get_unused_fd_flags return value
(negative = failure); `copyOk` means copy_to_user returned 0;
`addEventRet` the kgsl_add_event return value (0 = success). -/
structure FenceEnv where
  lenOk : Bool
  ctxFound : Bool
  kzallocOk : Bool
  ptAllocOk : Bool
  fenceAllocOk : Bool
  fenceFd : Int
  copyOk : Bool
  addEventRet : Int
deriving DecidableEq

/-- Resource trace of one kgsl_add_fence_event call.  Counters for each
acquisition and release; `fenceRefs` is the live reference count of the
one fence the call may create; `refUnderflow` records a sync_fence_put
on a fence whose count is already zero (a double put). -/
structure FenceTrace where
  eventAlloc : Nat := 0
  eventFree : Nat := 0
  ptAlloc : Nat := 0
  ptExplicitFree : Nat := 0
  ptFenceFree : Nat := 0
  refTaken : Nat := 0
  refDropped : Nat := 0
  fdGot : Nat := 0
  fdPut : Nat := 0
  fenceRefs : Nat := 0
  refUnderflow : Bool := false
  fdInstalled : Bool := false
  eventRegistered : Bool := false
deriving DecidableEq

/-- Trace of a call that acquired nothing. -/
def emptyTrace : FenceTrace := {}

/-- Modelled from the spec: kzalloc of the kgsl_fence_event_priv
record (event). -/
def kzalloc_event (t : FenceTrace) : FenceTrace :=
  { t with eventAlloc := t.eventAlloc + 1 }

/-- Modelled from the spec: kfree of the event record. -/
def kfree_event (t : FenceTrace) : FenceTrace :=
  { t with eventFree := t.eventFree + 1 }

/-- Trace effect of a successful kgsl_sync_pt_create inside the
pipeline: one wait point allocated. -/
def trace_pt_create (t : FenceTrace) : FenceTrace :=
  { t with ptAlloc := t.ptAlloc + 1 }

/-- kgsl_sync_pt_destroy: sync_pt_free (outside src/, modelled from the
spec) releases a point that was never wrapped into a fence. -/
def kgsl_sync_pt_destroy (t : FenceTrace) : FenceTrace :=
  { t with ptExplicitFree := t.ptExplicitFree + 1 }

/-- Modelled from the spec: sync_fence_create wraps the wait point into
a fence holding one reference; ownership of the point passes to the
fence (spec 4.4 step 4). -/
def sync_fence_create (t : FenceTrace) : FenceTrace :=
  { t with refTaken := t.refTaken + 1, fenceRefs := 1 }

/-- Modelled from the spec: sync_fence_put drops one reference; when
the count reaches zero the fence is destroyed, which also destroys its
wait point (spec section 3).  A put at count zero is recorded as an
underflow (double put). -/
def sync_fence_put (t : FenceTrace) : FenceTrace :=
  if t.fenceRefs = 0 then
    { t with refDropped := t.refDropped + 1, refUnderflow := true }
  else
    { t with refDropped := t.refDropped + 1,
             fenceRefs := t.fenceRefs - 1,
             ptFenceFree := if t.fenceRefs = 1 then t.ptFenceFree + 1
                            else t.ptFenceFree }

/-- Modelled from the spec: get_unused_fd_flags succeeded, reserving a
descriptor slot. -/
def get_unused_fd (t : FenceTrace) : FenceTrace :=
  { t with fdGot := t.fdGot + 1 }

/-- Modelled from the spec: put_unused_fd releases the reserved
descriptor slot. -/
def put_unused_fd (t : FenceTrace) : FenceTrace :=
  { t with fdPut := t.fdPut + 1 }

/-- Modelled from the spec: sync_fence_install makes the fence visible
through the descriptor table, which thereafter shares the
reference-counted fence with the pipeline (spec section 3), so the
table acquires a reference of its own. -/
def sync_fence_install (t : FenceTrace) : FenceTrace :=
  { t with refTaken := t.refTaken + 1, fenceRefs := t.fenceRefs + 1,
           fdInstalled := true }

/-- Modelled from the spec: kgsl_add_event registered the completion
callback (which will later free the event record exactly once). -/
def register_event (t : FenceTrace) : FenceTrace :=
  { t with eventRegistered := true }

/-- kgsl_add_fence_event, with the goto unwinding ladder written out on
each failure branch in the source's cleanup order.  Returns the C
return value, the resource trace, and the (threaded, untouched) state
of the context's timeline.  Error numbers as in the source: -EINVAL =
-22, -ENOMEM = -12, -EFAULT = -14; a failing kgsl_add_event's own value
is returned on the fail_event path. -/
def kgsl_add_fence_event (env : FenceEnv) (timestamp : Nat)
    (tl : KgslSyncTimeline) : Int × FenceTrace × KgslSyncTimeline :=
  if env.lenOk = false then (-22, emptyTrace, tl)
  else if env.ctxFound = false then (-22, emptyTrace, tl)
  else if env.kzallocOk = false then (-12, emptyTrace, tl)
  else
    let t1 := kzalloc_event emptyTrace
    match kgsl_sync_pt_create 0 timestamp env.ptAllocOk with
    | none => (-12, kfree_event t1, tl)
    | some _ =>
      let t2 := trace_pt_create t1
      if env.fenceAllocOk = false then
        (-12, kfree_event (kgsl_sync_pt_destroy t2), tl)
      else
        let t3 := sync_fence_create t2
        if env.fenceFd < 0 then
          (-22, kfree_event (sync_fence_put t3), tl)
        else
          let t4 := sync_fence_install (get_unused_fd t3)
          if env.copyOk = false then
            (-14, kfree_event (sync_fence_put (put_unused_fd (sync_fence_put t4))), tl)
          else if env.addEventRet ≠ 0 then
            (env.addEventRet,
             kfree_event (sync_fence_put (put_unused_fd (sync_fence_put t4))), tl)
          else
            (0, register_event t4, tl)

/-- The last_timestamp after folding a list of signals over a timeline
is the last signalled timestamp (or the starting value for the empty
list). -/
theorem signal_foldl_last_timestamp (l : List Nat) (tl : KgslSyncTimeline) :
    (l.foldl kgsl_sync_timeline_signal tl).last_timestamp =
      l.getLastD tl.last_timestamp := by
  induction l generalizing tl with
  | nil => rfl
  | cons a t ih =>
    rw [List.foldl_cons, List.getLastD_cons]
    exact ih (kgsl_sync_timeline_signal tl a)

/-- C3: kgsl_sync_pt_has_signaled returns true iff
timestamp_cmp(timeline.last_timestamp, pt.timestamp) >= 0, i.e. iff the
comparison is not before; it is a pure observation (a function of the
two states that writes neither, as its type records). -/
theorem kgsl_sync_pt_has_signaled_iff_cmp (tl : KgslSyncTimeline) (pt : KgslSyncPt) :
    kgsl_sync_pt_has_signaled tl pt = true ↔
      0 ≤ timestamp_cmp tl.last_timestamp pt.timestamp := by
  simp [kgsl_sync_pt_has_signaled]

/-- C2 counterexample: a timeline with last_timestamp = 1 advanced with
timestamp 0 ends with compare(new last_timestamp, old last_timestamp)
strictly negative, i.e. before: the advance decreased last_timestamp,
refuting the claim that it never does. -/
theorem kgsl_signal_decrease_counterexample :
    timestamp_cmp (kgsl_sync_timeline_signal { last_timestamp := 1 } 0).last_timestamp
      ({ last_timestamp := 1 } : KgslSyncTimeline).last_timestamp < 0 := by decide

/-- C2 (amended): kgsl_sync_timeline_signal overwrites last_timestamp
with its argument unconditionally, enforcing no monotonicity; the new
value compares not-before the old one exactly when the caller's
timestamp already does. -/
theorem kgsl_signal_overwrites (tl : KgslSyncTimeline) (t : Nat) :
    (kgsl_sync_timeline_signal tl t).last_timestamp = t ∧
    (0 ≤ timestamp_cmp t tl.last_timestamp →
      0 ≤ timestamp_cmp (kgsl_sync_timeline_signal tl t).last_timestamp
        tl.last_timestamp) :=
  ⟨rfl, fun h => h⟩

/-- C2 witness: the amended statement applied at a concrete advance of
a fresh timeline with timestamp 5. -/
theorem kgsl_signal_overwrites_witness :
    0 ≤ timestamp_cmp (kgsl_sync_timeline_signal { last_timestamp := 0 } 5).last_timestamp
      ({ last_timestamp := 0 } : KgslSyncTimeline).last_timestamp :=
  (kgsl_signal_overwrites { last_timestamp := 0 } 5).2 (by decide)

/-- C4 counterexample: a wait point for timestamp 5 is signaled after
advancing the timeline to 5, but a subsequent advance with timestamp 0
un-signals it, refuting permanence. -/
theorem kgsl_unsignal_counterexample :
    kgsl_sync_pt_has_signaled (kgsl_sync_timeline_signal { last_timestamp := 0 } 5)
      { parent := 0, timestamp := 5 } = true ∧
    kgsl_sync_pt_has_signaled
      (kgsl_sync_timeline_signal (kgsl_sync_timeline_signal { last_timestamp := 0 } 5) 0)
      { parent := 0, timestamp := 5 } = false := by decide

/-- C4 (amended): after any sequence of advances, a wait point is
signaled exactly when the most recent advance's timestamp (or the
initial last_timestamp, if none) compares not-before its target; so it
is false until such an advance occurs, and it stays true only while
later advances keep last_timestamp not-before the target — an advance
with an older timestamp un-signals it. -/
theorem kgsl_has_signaled_after_advances (tl : KgslSyncTimeline) (l : List Nat)
    (pt : KgslSyncPt) :
    kgsl_sync_pt_has_signaled (l.foldl kgsl_sync_timeline_signal tl) pt = true ↔
      0 ≤ timestamp_cmp (l.getLastD tl.last_timestamp) pt.timestamp := by
  simp [kgsl_sync_pt_has_signaled, signal_foldl_last_timestamp]

/-- C9: duplicating a wait point succeeds exactly when the underlying
allocation does; on success the duplicate has the same parent timeline
and the same target timestamp, hence the same has_signaled result
against every state the timeline may later reach; on allocation failure
it returns NULL (the caller maps this to OutOfMemory). -/
theorem kgsl_sync_pt_dup_spec (pt : KgslSyncPt) :
    kgsl_sync_pt_dup pt true = some { parent := pt.parent, timestamp := pt.timestamp } ∧
    kgsl_sync_pt_dup pt false = none ∧
    ∀ tl : KgslSyncTimeline,
      kgsl_sync_pt_has_signaled tl { parent := pt.parent, timestamp := pt.timestamp } =
        kgsl_sync_pt_has_signaled tl pt :=
  ⟨rfl, rfl, fun _ => rfl⟩

/-- C8: kgsl_sync_timeline_create returns 0 and installs a timeline
with last_timestamp = 0 when the framework allocation succeeds, and
returns -EINVAL leaving context->timeline NULL when it fails. -/
theorem kgsl_sync_timeline_create_spec (ctx : KgslContext) :
    ((kgsl_sync_timeline_create ctx true).1 = 0 ∧
     (kgsl_sync_timeline_create ctx true).2.timeline = some { last_timestamp := 0 }) ∧
    ((kgsl_sync_timeline_create ctx false).1 = -22 ∧
     (kgsl_sync_timeline_create ctx false).2.timeline = none) :=
  ⟨⟨rfl, rfl⟩, ⟨rfl, rfl⟩⟩

/-- Environment in which every collaborator succeeds. -/
def allOkEnv : FenceEnv :=
  { lenOk := true, ctxFound := true, kzallocOk := true, ptAllocOk := true,
    fenceAllocOk := true, fenceFd := 0, copyOk := true, addEventRet := 0 }

/-- Environment in which everything succeeds up to copy_to_user, which
fails. -/
def copyFailEnv : FenceEnv :=
  { allOkEnv with copyOk := false }

/-- Environment in which everything succeeds up to sync_fence_create,
which fails. -/
def fenceFailEnv : FenceEnv :=
  { allOkEnv with fenceAllocOk := false }

/-- Environment in which kgsl_find_context finds no context. -/
def noContextEnv : FenceEnv :=
  { allOkEnv with ctxFound := false }

/-- Trace of the copy_to_user failure path: event allocated and freed,
wait point allocated and freed once via the fence's final reference
drop, both fence references (creation and descriptor-table) dropped,
the descriptor slot reserved and released. -/
def copyFailTrace : FenceTrace :=
  { eventAlloc := 1, eventFree := 1, ptAlloc := 1, ptFenceFree := 1,
    refTaken := 2, refDropped := 2, fdGot := 1, fdPut := 1,
    fenceRefs := 0, fdInstalled := true }

/-- C5: with an unknown context_id the pipeline returns -EINVAL having
acquired nothing, and the timeline state is untouched. -/
theorem kgsl_add_fence_event_unknown_context (env : FenceEnv) (ts : Nat)
    (tl : KgslSyncTimeline) (h : env.ctxFound = false) :
    kgsl_add_fence_event env ts tl = (-22, emptyTrace, tl) := by
  rcases env with ⟨l, c, k, p, f, fd, cp, ae⟩
  cases c with
  | false => cases l <;> simp [kgsl_add_fence_event]
  | true => simp at h

/-- C5 witness: the theorem applied to the concrete no-context
environment. -/
theorem kgsl_add_fence_event_unknown_context_witness :
    kgsl_add_fence_event noContextEnv 5 { last_timestamp := 0 } =
      (-22, emptyTrace, { last_timestamp := 0 }) :=
  kgsl_add_fence_event_unknown_context noContextEnv 5 { last_timestamp := 0 } rfl

/-- C6: when sync_fence_create fails after the wait point was created,
the pipeline returns -ENOMEM, destroys the wait point explicitly,
frees the event record, reserves no descriptor and registers no event,
and touches no fence reference. -/
theorem kgsl_add_fence_event_fence_fail (env : FenceEnv) (ts : Nat)
    (tl : KgslSyncTimeline) (hl : env.lenOk = true) (hc : env.ctxFound = true)
    (hk : env.kzallocOk = true) (hp : env.ptAllocOk = true)
    (hf : env.fenceAllocOk = false) :
    kgsl_add_fence_event env ts tl =
      (-12, { eventAlloc := 1, eventFree := 1, ptAlloc := 1, ptExplicitFree := 1 },
       tl) := by
  rcases env with ⟨l, c, k, p, f, fd, cp, ae⟩
  simp at hl hc hk hp hf
  subst hl hc hk hp hf
  simp [kgsl_add_fence_event, kgsl_sync_pt_create, kzalloc_event, kfree_event,
    trace_pt_create, kgsl_sync_pt_destroy, emptyTrace]

/-- C6 witness: the theorem applied to the concrete
fence-creation-failure environment. -/
theorem kgsl_add_fence_event_fence_fail_witness :
    kgsl_add_fence_event fenceFailEnv 5 { last_timestamp := 0 } =
      (-12, { eventAlloc := 1, eventFree := 1, ptAlloc := 1, ptExplicitFree := 1 },
       { last_timestamp := 0 }) :=
  kgsl_add_fence_event_fence_fail fenceFailEnv 5 { last_timestamp := 0 }
    rfl rfl rfl rfl rfl

/-- C7 counterexample: with everything succeeding except copy_to_user,
the pipeline returns -EFAULT, not -EINVAL, refuting the claimed
InvalidArgument error kind. -/
theorem kgsl_copy_fail_not_einval :
    (kgsl_add_fence_event copyFailEnv 5 { last_timestamp := 0 }).1 = -14 ∧
    ((-14 : Int) ≠ -22) := by decide

/-- C7 (amended): when copy_to_user fails after the descriptor was
reserved and the fence installed, the pipeline returns -EFAULT (Fault,
not InvalidArgument), releases the installed descriptor (both fence
references dropped, the wait point freed exactly once via the fence)
and frees the event record. -/
theorem kgsl_add_fence_event_copy_fail (env : FenceEnv) (ts : Nat)
    (tl : KgslSyncTimeline) (hl : env.lenOk = true) (hc : env.ctxFound = true)
    (hk : env.kzallocOk = true) (hp : env.ptAllocOk = true)
    (hf : env.fenceAllocOk = true) (hfd : 0 ≤ env.fenceFd)
    (hcp : env.copyOk = false) :
    kgsl_add_fence_event env ts tl = (-14, copyFailTrace, tl) := by
  rcases env with ⟨l, c, k, p, f, fd, cp, ae⟩
  simp at hl hc hk hp hf hcp
  subst hl hc hk hp hf hcp
  simp only at hfd
  simp [kgsl_add_fence_event, kgsl_sync_pt_create, kzalloc_event, kfree_event,
    trace_pt_create, sync_fence_create, sync_fence_put, sync_fence_install,
    get_unused_fd, put_unused_fd, emptyTrace, copyFailTrace, not_lt.mpr hfd]

/-- C7 witness: the amended theorem applied to the concrete
copy-failure environment. -/
theorem kgsl_add_fence_event_copy_fail_witness :
    kgsl_add_fence_event copyFailEnv 5 { last_timestamp := 0 } =
      (-14, copyFailTrace, { last_timestamp := 0 }) :=
  kgsl_add_fence_event_copy_fail copyFailEnv 5 { last_timestamp := 0 }
    rfl rfl rfl rfl rfl (by decide) rfl

/-- Trace of the sync_pt_create failure path: only the event record was
allocated, and it is freed. -/
def ptFailTrace : FenceTrace :=
  { eventAlloc := 1, eventFree := 1 }

/-- Trace of the sync_fence_create failure path: the wait point is
destroyed explicitly (it was never wrapped) and the event record
freed. -/
def fenceFailTrace : FenceTrace :=
  { eventAlloc := 1, eventFree := 1, ptAlloc := 1, ptExplicitFree := 1 }

/-- Trace of the get_unused_fd_flags failure path: the creation
reference is dropped, freeing the wait point through the fence, and the
event record freed; no descriptor was reserved. -/
def fdFailTrace : FenceTrace :=
  { eventAlloc := 1, eventFree := 1, ptAlloc := 1, ptFenceFree := 1,
    refTaken := 1, refDropped := 1 }

/-- Trace of the fully successful path: everything acquired is alive
and handed off — the wait point inside the fence, the fence held by the
descriptor table and the installed descriptor, the event record owned
by the registered callback. -/
def successTrace : FenceTrace :=
  { eventAlloc := 1, ptAlloc := 1, refTaken := 2, fenceRefs := 2,
    fdGot := 1, fdInstalled := true, eventRegistered := true }

/-- Every run of kgsl_add_fence_event lands in one of the eight
branches of the source, with the corresponding return value and
resource trace, and returns the timeline untouched. -/
theorem kgsl_add_fence_event_cases (env : FenceEnv) (ts : Nat)
    (tl : KgslSyncTimeline) :
    kgsl_add_fence_event env ts tl = (-22, emptyTrace, tl) ∨
    kgsl_add_fence_event env ts tl = (-12, emptyTrace, tl) ∨
    kgsl_add_fence_event env ts tl = (-12, ptFailTrace, tl) ∨
    kgsl_add_fence_event env ts tl = (-12, fenceFailTrace, tl) ∨
    kgsl_add_fence_event env ts tl = (-22, fdFailTrace, tl) ∨
    kgsl_add_fence_event env ts tl = (-14, copyFailTrace, tl) ∨
    (env.addEventRet ≠ 0 ∧
      kgsl_add_fence_event env ts tl = (env.addEventRet, copyFailTrace, tl)) ∨
    kgsl_add_fence_event env ts tl = (0, successTrace, tl) := by
  simp only [kgsl_add_fence_event]
  split
  · exact Or.inl rfl
  · split
    · exact Or.inl rfl
    · split
      · exact Or.inr (Or.inl rfl)
      · split
        · exact Or.inr (Or.inr (Or.inl rfl))
        · split
          · exact Or.inr (Or.inr (Or.inr (Or.inl rfl)))
          · split
            · exact Or.inr (Or.inr (Or.inr (Or.inr (Or.inl rfl))))
            · split
              · exact Or.inr (Or.inr (Or.inr (Or.inr (Or.inr (Or.inl rfl)))))
              · split
                · rename_i hae
                  exact Or.inr (Or.inr (Or.inr (Or.inr (Or.inr (Or.inr
                    (Or.inl ⟨hae, rfl⟩))))))
                · exact Or.inr (Or.inr (Or.inr (Or.inr (Or.inr (Or.inr
                    (Or.inr rfl))))))

/-- C1 counterexample: on the all-success path the call returns 0 with
one wait point allocated and zero wait point releases (ownership is
handed off alive inside the installed fence), so the claimed equality
of allocation and release counts on every success path fails. -/
theorem kgsl_fence_success_not_balanced :
    (kgsl_add_fence_event allOkEnv 5 { last_timestamp := 0 }).1 = 0 ∧
    (kgsl_add_fence_event allOkEnv 5 { last_timestamp := 0 }).2.1.ptAlloc = 1 ∧
    (kgsl_add_fence_event allOkEnv 5 { last_timestamp := 0 }).2.1.ptExplicitFree = 0 ∧
    (kgsl_add_fence_event allOkEnv 5 { last_timestamp := 0 }).2.1.ptFenceFree = 0 := by
  decide

/-- C1 (amended): on every failure path the pipeline releases exactly
what it acquired (wait point, event record, fence references and
descriptor slot all balanced); no fence reference is ever dropped below
zero, a wait point is never released both explicitly and through the
fence, and never released more often than allocated; on the success
path every resource is still alive exactly once, handed off to the
installed descriptor and the registered event. -/
theorem kgsl_fence_pipeline_balance (env : FenceEnv) (ts : Nat)
    (tl : KgslSyncTimeline) (ret : Int) (t : FenceTrace) (tl' : KgslSyncTimeline)
    (h : kgsl_add_fence_event env ts tl = (ret, t, tl')) :
    t.refUnderflow = false ∧
    (t.ptExplicitFree = 0 ∨ t.ptFenceFree = 0) ∧
    t.ptExplicitFree + t.ptFenceFree ≤ t.ptAlloc ∧
    t.refDropped ≤ t.refTaken ∧
    t.eventFree ≤ t.eventAlloc ∧
    (ret ≠ 0 →
      t.ptAlloc = t.ptExplicitFree + t.ptFenceFree ∧
      t.refTaken = t.refDropped ∧
      t.eventAlloc = t.eventFree ∧
      t.fdGot = t.fdPut) ∧
    (ret = 0 →
      t.ptAlloc = 1 ∧ t.ptExplicitFree = 0 ∧ t.ptFenceFree = 0 ∧
      t.eventAlloc = 1 ∧ t.eventFree = 0 ∧
      t.refTaken = 2 ∧ t.refDropped = 0 ∧ t.fenceRefs = 2 ∧
      t.fdGot = 1 ∧ t.fdPut = 0 ∧ t.fdInstalled = true ∧
      t.eventRegistered = true) := by
  rcases kgsl_add_fence_event_cases env ts tl with
    hc | hc | hc | hc | hc | hc | hac | hc
  · rw [hc] at h
    injection h with h1 h2; injection h2 with h2 h3
    subst h1; subst h2; decide
  · rw [hc] at h
    injection h with h1 h2; injection h2 with h2 h3
    subst h1; subst h2; decide
  · rw [hc] at h
    injection h with h1 h2; injection h2 with h2 h3
    subst h1; subst h2; decide
  · rw [hc] at h
    injection h with h1 h2; injection h2 with h2 h3
    subst h1; subst h2; decide
  · rw [hc] at h
    injection h with h1 h2; injection h2 with h2 h3
    subst h1; subst h2; decide
  · rw [hc] at h
    injection h with h1 h2; injection h2 with h2 h3
    subst h1; subst h2; decide
  · obtain ⟨hae, hc⟩ := hac
    rw [hc] at h
    injection h with h1 h2; injection h2 with h2 h3
    subst h1; subst h2
    exact ⟨by decide, by decide, by decide, by decide, by decide,
      fun _ => by decide, fun h0 => absurd h0 hae⟩
  · rw [hc] at h
    injection h with h1 h2; injection h2 with h2 h3
    subst h1; subst h2; decide

/-- C1 witness: the balance equations of the amended theorem applied on
the concrete copy-failure path, with its hypotheses discharged by
evaluation. -/
theorem kgsl_fence_pipeline_balance_witness :
    copyFailTrace.ptAlloc = copyFailTrace.ptExplicitFree + copyFailTrace.ptFenceFree ∧
    copyFailTrace.refTaken = copyFailTrace.refDropped ∧
    copyFailTrace.eventAlloc = copyFailTrace.eventFree ∧
    copyFailTrace.fdGot = copyFailTrace.fdPut :=
  (kgsl_fence_pipeline_balance copyFailEnv 5 { last_timestamp := 0 } (-14)
      copyFailTrace { last_timestamp := 0 } (by decide)).2.2.2.2.2.1 (by decide)

/-- C10: kgsl_add_fence_event returns the timeline state unchanged in
every environment (no step of the pipeline writes last_timestamp), so
no wait point changes signaled status during the call; the completion
callback, which delegates to kgsl_sync_timeline_signal, is the only
writer of last_timestamp. -/
theorem kgsl_add_fence_event_preserves_timeline (env : FenceEnv) (ts : Nat)
    (tl : KgslSyncTimeline) :
    (kgsl_add_fence_event env ts tl).2.2 = tl ∧
    (∀ pt, kgsl_sync_pt_has_signaled (kgsl_add_fence_event env ts tl).2.2 pt =
      kgsl_sync_pt_has_signaled tl pt) ∧
    (∀ t, kgsl_fence_event_cb tl t = kgsl_sync_timeline_signal tl t) := by
  have h : (kgsl_add_fence_event env ts tl).2.2 = tl := by
    rcases kgsl_add_fence_event_cases env ts tl with
      hc | hc | hc | hc | hc | hc | ⟨_, hc⟩ | hc <;> rw [hc]
  exact ⟨h, fun pt => by rw [h], fun _ => rfl⟩
